import Mathlib

/-!
Shallow embedding of `src/agent-eval.py` (CURA evaluation orchestration
script) and proofs about its behaviour.

Python dictionaries are embedded as association lists with Python's
insertion semantics (`dictInsert` overwrites an existing key in place),
dictionary subscripting that may raise `KeyError` is `dictGet` combined
with an `Except PyError` result, and the report filesystem is a function
from the path components of `report.json` to its optional decoded content.
-/

namespace AgentEval

instance [DecidableEq e] [DecidableEq a] : DecidableEq (Except e a) := fun x y =>
  match x, y with
  | .ok v, .ok w => if h : v = w then .isTrue (by rw [h]) else .isFalse (by simp [h])
  | .error v, .error w => if h : v = w then .isTrue (by rw [h]) else .isFalse (by simp [h])
  | .ok _, .error _ => .isFalse (by simp)
  | .error _, .ok _ => .isFalse (by simp)

/-- Python exception classes that the script can raise, by class name. -/
inductive PyError
  | keyError
  | indexError
  | attributeError
  | valueError
  | assertionError
  | timeoutError
  | exception
deriving DecidableEq, Repr

/-- Python `d[k]` lookup on a dict embedded as an association list:
returns the value of the first (hence unique) binding of `k`. -/
def dictGet (k : String) : List (String × β) → Option β
  | [] => none
  | (k', v) :: rest => if k = k' then some v else dictGet k rest

/-- Python `d[k] = v` on a dict embedded as an association list:
overwrites the existing binding of `k` in place, else appends. -/
def dictInsert (k : String) (v : β) : List (String × β) → List (String × β)
  | [] => [(k, v)]
  | (k', v') :: rest =>
      if k' = k then (k, v) :: rest else (k', v') :: dictInsert k v rest

/-! ### `predict` (src/agent-eval.py lines 28-41) -/

/-- Behaviour of one call to the patch-generation collaborator
`do_prediction_plan` under the `@timeout(500)` wrapper. -/
inductive CollabOutcome
  | ok (patch : String)
  | raises
  | timesOut
deriving DecidableEq, Repr

/-- The dict `predict` returns. -/
structure PredictResult where
  instance_id : String
  model_patch : String
  model_name_or_path : String
deriving DecidableEq, Repr

/-- Modelled from the spec: `cura.utils.timeout` and
`cura.prediction.do_prediction_plan` are part of this repository but not
under `src/`; per spec §4.3/§6 the wrapper enforces a hard wall-clock
budget of 500 units and surfaces expiry as a raised exception, and the
collaborator may return a patch string or raise. -/
def get_patch_with_timeout (c : CollabOutcome) : Except PyError String :=
  match c with
  | .ok p => .ok p
  | .raises => .error .exception
  | .timesOut => .error .timeoutError

/-- `predict(inputs)`: the `try` block wraps only the collaborator call,
turning any exception into `patch = ""`; the result dict then reads
`inputs['instance_id']` outside the handler, which raises `KeyError`
when the key is absent. -/
def predict (inputs : List (String × String)) (c : CollabOutcome) :
    Except PyError PredictResult :=
  let patch : String :=
    match get_patch_with_timeout c with
    | .ok p => p
    | .error _ => ""
  match dictGet "instance_id" inputs with
  | none => .error .keyError
  | some iid =>
      .ok { instance_id := iid, model_patch := patch,
            model_name_or_path := "gpt-4o-mini" }

/-! ### Version normalization loop (src/agent-eval.py lines 73-74) -/

/-- A raw Python value held in the `version` field: a string, a number,
or anything else. -/
inductive PyVal
  | str (s : String)
  | num (n : Int)
  | other
deriving DecidableEq, Repr

/-- Python `str.split(sep)` for a single-character separator, on the
character list of the string: `"a:b:c".split(":") = ["a","b","c"]`,
`"" .split(":") = [""]`. -/
def pySplit (sep : Char) : List Char → List (List Char)
  | [] => [[]]
  | c :: cs =>
      if c = sep then [] :: pySplit sep cs
      else
        match pySplit sep cs with
        | [] => [[c]]
        | f :: rest => (c :: f) :: rest

/-- The body of the normalization loop, `d['version'].split(":")[1]`,
applied to one raw version value: a non-string has no `.split` method
(`AttributeError`); on a string, subscript `[1]` of the split raises
`IndexError` when the split has fewer than two fields. -/
def normalize_version : PyVal → Except PyError (List Char)
  | .str s =>
      match (pySplit ':' s.data).get? 1 with
      | some t => .ok t
      | none => .error .indexError
  | .num _ => .error .attributeError
  | .other => .error .attributeError

/-! ### `convert_runs_to_langsmith_feedback` (src/agent-eval.py lines 92-137) -/

/-- One entry of the `predictions` dict: the prediction's own fields plus
the LangSmith `run_id` attached at collection time.  `model_patch` is
`Option` because the aggregator reads it with `.get("model_patch", None)`. -/
structure Pred where
  instance_id : String
  model_patch : Option String
  model_name_or_path : String
  run_id : String
deriving DecidableEq, Repr

/-- A dataset instance, as far as this script reads it. -/
structure Instance where
  instance_id : String
  repo : String
  version : String
deriving DecidableEq, Repr

/-- One `{"key": ..., "score": ...}` feedback object. -/
structure FeedbackEntry where
  key : String
  score : Nat
deriving DecidableEq, Repr

/-- The three-tier record stored per run id. -/
abbrev FeedbackRecord := List FeedbackEntry

/-- Python `s.replace("/", "__")` on the character list of `s`. -/
def pyReplaceSlash : List Char → List Char
  | [] => []
  | c :: cs =>
      if c = '/' then '_' :: '_' :: pyReplaceSlash cs
      else c :: pyReplaceSlash cs

/-- The report filesystem: maps the path components
`run_id / model_name_or_path.replace("/","__") / instance_id` of
`logs/run_evaluation/.../report.json` to the decoded report when the file
exists.  The decoded report maps an instance id to its `"resolved"` bool. -/
def FS := String → String → String → Option (List (String × Bool))

/-- The per-instance body of the aggregation loop: empty/missing patch
short-circuits to all-zero scores without touching the filesystem;
otherwise the report path is probed (path built from the prediction's own
`instance_id`), and a present report is indexed by the dataset instance's
id to read `["resolved"]` (a missing id raises `KeyError`). -/
def feedbackForInstance (fs : FS) (run_id : String) (instance_id : String)
    (p : Pred) : Except PyError FeedbackRecord :=
  if p.model_patch = some "" ∨ p.model_patch = none then
    .ok [⟨"non-empty-patch", 0⟩, ⟨"completed-patch", 0⟩, ⟨"resolved-patch", 0⟩]
  else
    match fs run_id ⟨pyReplaceSlash p.model_name_or_path.data⟩ p.instance_id with
    | none =>
        .ok [⟨"non-empty-patch", 1⟩, ⟨"completed-patch", 0⟩, ⟨"resolved-patch", 0⟩]
    | some report =>
        match dictGet instance_id report with
        | none => .error .keyError
        | some resolved =>
            .ok [⟨"non-empty-patch", 1⟩, ⟨"completed-patch", 1⟩,
                 ⟨"resolved-patch", if resolved then 1 else 0⟩]

/-- The aggregation loop: iterate the dataset in order, look each
instance's prediction up by `instance_id` (raising `KeyError` when
absent), and assign the instance's record into the feedback dict under
`prediction['run_id']`. -/
def convertLoop (preds : List (String × Pred)) (fs : FS) (run_id : String) :
    List Instance → List (String × FeedbackRecord) →
    Except PyError (List (String × FeedbackRecord))
  | [], acc => .ok acc
  | inst :: rest, acc =>
      match dictGet inst.instance_id preds with
      | none => .error .keyError
      | some p =>
          match feedbackForInstance fs run_id inst.instance_id p with
          | .error e => .error e
          | .ok fb => convertLoop preds fs run_id rest (dictInsert p.run_id fb acc)

/-- `convert_runs_to_langsmith_feedback(predictions, full_dataset, run_id)`:
returns the dict that the function dumps to
`./langsmith_feedback/feedback.json`. -/
def convert_runs_to_langsmith_feedback (preds : List (String × Pred))
    (full_dataset : List Instance) (run_id : String) (fs : FS) :
    Except PyError (List (String × FeedbackRecord)) :=
  convertLoop preds fs run_id full_dataset []

/-- The `(run_id, record)` pair the loop produces for each instance, in
dataset order, before the dict assignments collapse duplicate run ids.
Specification-side companion of `convertLoop` used to state which write
wins. -/
def convertPairs (preds : List (String × Pred)) (fs : FS) (run_id : String) :
    List Instance → Except PyError (List (String × FeedbackRecord))
  | [] => .ok []
  | inst :: rest =>
      match dictGet inst.instance_id preds with
      | none => .error .keyError
      | some p =>
          match feedbackForInstance fs run_id inst.instance_id p with
          | .error e => .error e
          | .ok fb => (convertPairs preds fs run_id rest).map ((p.run_id, fb) :: ·)

/-! ### `make_test_spec` (src/agent-eval.py lines 151-179) -/

/-- The two `KeyError` shapes `make_test_spec` raises, with the payload
each message carries. -/
inductive ResolveError
  | unknownRepo (repo : String)
  | unknownVersion (version : String) (repo : String) (available : List String)
deriving DecidableEq, Repr

/-- `make_test_spec(instance)`, generic over the repo-to-version-table
mapping (the source hardcodes an example `MAP_REPO_VERSION_TO_SPECS`
inside the function, kept below as `MAP_REPO_VERSION_TO_SPECS`; the
lookup and fallback logic is unchanged).  Version keys carry the
source's `version:` prefix.  The fallback substitutes `version:3.0`
exactly when the requested version is `version:3.1` and the repo's table
lacks it. -/
def make_test_spec (map : List (String × List (String × α)))
    (inst : Instance) : Except ResolveError α :=
  let repo := inst.repo
  let version := inst.version
  match dictGet repo map with
  | none => .error (.unknownRepo repo)
  | some table =>
      let version :=
        if version = "version:3.1" && (dictGet "version:3.1" table).isNone then
          "version:3.0"
        else version
      match dictGet version table with
      | none => .error (.unknownVersion version repo (table.map Prod.fst))
      | some spec => .ok spec

/-- The example mapping hardcoded in the source (every spec is the empty
dict, embedded as `Unit`). -/
def MAP_REPO_VERSION_TO_SPECS : List (String × List (String × Unit)) :=
  [("repo1",
    [("version:1.0", ()), ("version:2.0", ()),
     ("version:3.0", ()), ("version:3.1", ())])]

/-! ### `evaluate_predictions` (src/agent-eval.py lines 182-208) -/

/-- The externally visible operations `evaluate_predictions` performs, in
source order. -/
inductive Step
  | setrlimit
  | dockerFromEnv
  | listImages
  | buildEnvImages
  | runInstances
  | cleanImages
  | convertFeedback
deriving DecidableEq, Repr

/-- The configuration arguments of `evaluate_predictions` that are passed
through to collaborators. -/
structure EvalConfig where
  max_workers : Nat
  force_rebuild : Bool
  cache_level : String
  clean : Bool
  open_file_limit : Nat
  timeout : Nat
deriving DecidableEq, Repr

/-- Behaviour of the external harness collaborators during this run:
whether `build_env_images` raises, whether `run_instances` raises, and
the report files present once the batch returns. -/
structure HarnessEnv where
  buildRaises : Bool
  runRaises : Bool
  fs : FS

/-- `evaluate_predictions(dataset, predictions, ...)` as the trace of
steps it starts plus its outcome.  The body is straight-line: the empty
dataset check and the run-id assertion precede any resource or docker
call, and `clean_images` runs only when `build_env_images` and
`run_instances` both return (there is no `try`/`finally`). -/
def evaluate_predictions (dataset : List Instance)
    (predictions : List (String × Pred)) (cfg : EvalConfig)
    (run_id : String) (env : HarnessEnv) : List Step × Option PyError :=
  if dataset.isEmpty then ([], some .valueError)
  else if run_id.length = 0 then ([], some .assertionError)
  else
    let tr := [Step.setrlimit, Step.dockerFromEnv, Step.listImages,
               Step.buildEnvImages]
    if env.buildRaises then (tr, some .exception)
    else if env.runRaises then (tr ++ [Step.runInstances], some .exception)
    else
      let tr := tr ++ [Step.runInstances, Step.cleanImages]
      match convert_runs_to_langsmith_feedback predictions dataset run_id env.fs with
      | .error e => (tr ++ [Step.convertFeedback], some e)
      | .ok _ => (tr ++ [Step.convertFeedback], none)

/-! ### `swe_bench_evaluator` (src/agent-eval.py lines 215-221) -/

/-- `swe_bench_evaluator(run, example)` over the decoded feedback store:
returns `{"results": langsmith_eval[str(run.id)]}`, where the dict
subscript raises `KeyError` when the run id has no entry. -/
def swe_bench_evaluator (store : List (String × FeedbackRecord))
    (run_id : String) : Except PyError FeedbackRecord :=
  match dictGet run_id store with
  | none => .error .keyError
  | some results => .ok results

/-! ## Lemmas about `pySplit` -/

/-- Splitting a list that does not contain the separator yields the
one-field split. -/
theorem pySplit_no_sep (sep : Char) (l : List Char) (h : sep ∉ l) :
    pySplit sep l = [l] := by
  induction l with
  | nil => rfl
  | cons c cs ih =>
      have hc : ¬ c = sep := by rintro rfl; exact h (List.mem_cons_self _ _)
      have hcs : sep ∉ cs := fun m => h (List.mem_cons_of_mem _ m)
      simp [pySplit, hc, ih hcs]

/-- Splitting past a separator-free first field peels that field off. -/
theorem pySplit_append (sep : Char) (a b : List Char) (h : sep ∉ a) :
    pySplit sep (a ++ sep :: b) = a :: pySplit sep b := by
  induction a with
  | nil => simp [pySplit]
  | cons c cs ih =>
      have hc : ¬ c = sep := by rintro rfl; exact h (List.mem_cons_self _ _)
      have hcs : sep ∉ cs := fun m => h (List.mem_cons_of_mem _ m)
      simp [pySplit, hc, ih hcs]

/-! ## Lemmas about the embedded dict operations -/

/-- Lookup after a Python-style dict assignment. -/
theorem dictGet_dictInsert (k k' : String) (v : β) (d : List (String × β)) :
    dictGet k (dictInsert k' v d) = if k = k' then some v else dictGet k d := by
  induction d with
  | nil => simp [dictInsert, dictGet]
  | cons kv rest ih =>
      obtain ⟨a, w⟩ := kv
      by_cases ha : a = k'
      · subst ha
        by_cases hk : k = a <;> simp [dictInsert, dictGet, hk]
      · by_cases hk : k = a
        · subst hk
          simp [dictInsert, dictGet, ha]
        · simp [dictInsert, dictGet, ha, hk, ih]

/-- The key list after a Python-style dict assignment: unchanged when the
key was already bound, else with the key appended. -/
theorem keys_dictInsert (k : String) (v : β) (d : List (String × β)) :
    (dictInsert k v d).map Prod.fst =
      if k ∈ d.map Prod.fst then d.map Prod.fst
      else d.map Prod.fst ++ [k] := by
  induction d with
  | nil => simp [dictInsert]
  | cons kv rest ih =>
      obtain ⟨a, w⟩ := kv
      by_cases ha : a = k
      · simp [dictInsert, ha]
      · have hka : ¬ k = a := fun h => ha h.symm
        simp only [dictInsert, if_neg ha, List.map_cons, ih]
        by_cases hk : k ∈ rest.map Prod.fst
        · simp [hk, hka]
        · simp [hk, hka]

/-- Key membership after a Python-style dict assignment. -/
theorem mem_keys_dictInsert (k k' : String) (v : β) (d : List (String × β)) :
    k ∈ (dictInsert k' v d).map Prod.fst ↔ k = k' ∨ k ∈ d.map Prod.fst := by
  rw [keys_dictInsert]
  by_cases h : k' ∈ d.map Prod.fst
  · rw [if_pos h]
    constructor
    · exact Or.inr
    · rintro (rfl | hk)
      exacts [h, hk]
  · rw [if_neg h]
    simp [List.mem_append]
    tauto

/-- Dict assignment keeps the key list duplicate-free. -/
theorem keys_dictInsert_nodup (k : String) (v : β) (d : List (String × β))
    (h : (d.map Prod.fst).Nodup) : ((dictInsert k v d).map Prod.fst).Nodup := by
  rw [keys_dictInsert]
  by_cases hk : k ∈ d.map Prod.fst
  · rw [if_pos hk]
    exact h
  · rw [if_neg hk]
    simp [List.nodup_append, h, hk]

/-- Lookup distributes over list append, first list first. -/
theorem dictGet_append (k : String) (a b : List (String × β)) :
    dictGet k (a ++ b) =
      match dictGet k a with
      | some v => some v
      | none => dictGet k b := by
  induction a with
  | nil => simp [dictGet]
  | cons kv rest ih =>
      obtain ⟨x, w⟩ := kv
      by_cases hx : k = x <;> simp [dictGet, hx, ih]

/-- Folding dict assignments over a pair list: the last assignment to a
key wins, falling back to the accumulator. -/
theorem dictGet_foldl_dictInsert (k : String) (l acc : List (String × β)) :
    dictGet k (l.foldl (fun d kv => dictInsert kv.1 kv.2 d) acc) =
      match dictGet k l.reverse with
      | some v => some v
      | none => dictGet k acc := by
  induction l generalizing acc with
  | nil => simp [dictGet]
  | cons kv rest ih =>
      obtain ⟨a, w⟩ := kv
      rw [List.foldl_cons, ih, List.reverse_cons, dictGet_append]
      cases hrev : dictGet k rest.reverse
      · by_cases hk : k = a <;> simp [dictGet, dictGet_dictInsert, hk]
      · rfl

/-- Key membership after folding dict assignments. -/
theorem mem_keys_foldl_dictInsert (k : String) (l acc : List (String × β)) :
    k ∈ ((l.foldl (fun d kv => dictInsert kv.1 kv.2 d) acc).map Prod.fst) ↔
      k ∈ l.map Prod.fst ∨ k ∈ acc.map Prod.fst := by
  induction l generalizing acc with
  | nil => simp
  | cons kv rest ih =>
      obtain ⟨a, w⟩ := kv
      rw [List.foldl_cons, ih, mem_keys_dictInsert]
      simp only [List.map_cons, List.mem_cons]
      tauto

/-- Folding dict assignments into a duplicate-free dict keeps the keys
duplicate-free. -/
theorem keys_foldl_dictInsert_nodup (l acc : List (String × β))
    (h : (acc.map Prod.fst).Nodup) :
    ((l.foldl (fun d kv => dictInsert kv.1 kv.2 d) acc).map Prod.fst).Nodup := by
  induction l generalizing acc with
  | nil => exact h
  | cons kv rest ih =>
      rw [List.foldl_cons]
      exact ih _ (keys_dictInsert_nodup _ _ _ h)

/-- Every binding of a dict after an assignment is the assigned binding
or one of the previous bindings. -/
theorem mem_dictInsert (kv : String × β) (k : String) (v : β)
    (d : List (String × β)) (h : kv ∈ dictInsert k v d) :
    kv = (k, v) ∨ kv ∈ d := by
  induction d with
  | nil => simpa [dictInsert] using h
  | cons x rest ih =>
      obtain ⟨a, w⟩ := x
      simp only [dictInsert] at h
      by_cases ha : a = k
      · rw [if_pos ha] at h
        rcases List.mem_cons.mp h with h' | h'
        · exact Or.inl h'
        · exact Or.inr (List.mem_cons_of_mem _ h')
      · rw [if_neg ha] at h
        rcases List.mem_cons.mp h with h' | h'
        · exact Or.inr (by rw [h']; exact List.mem_cons_self _ _)
        · rcases ih h' with h'' | h''
          exacts [Or.inl h'', Or.inr (List.mem_cons_of_mem _ h'')]

/-- Every binding of a fold of dict assignments comes from the assigned
pairs or from the accumulator. -/
theorem mem_foldl_dictInsert (kv : String × β) (l acc : List (String × β))
    (h : kv ∈ l.foldl (fun d x => dictInsert x.1 x.2 d) acc) :
    kv ∈ l ∨ kv ∈ acc := by
  induction l generalizing acc with
  | nil => exact Or.inr h
  | cons x rest ih =>
      rw [List.foldl_cons] at h
      rcases ih _ h with h' | h'
      · exact Or.inl (List.mem_cons_of_mem _ h')
      · rcases mem_dictInsert _ _ _ _ h' with h'' | h''
        · exact Or.inl (by simp [h''])
        · exact Or.inr h''

/-! ## Lemmas relating the aggregation loop to its per-instance pairs -/

/-- The aggregation loop is the fold of Python dict assignments over the
per-instance `(run_id, record)` pairs. -/
theorem convertLoop_eq_pairs (preds : List (String × Pred)) (fs : FS)
    (run_id : String) (ds : List Instance)
    (acc : List (String × FeedbackRecord)) :
    convertLoop preds fs run_id ds acc =
      (convertPairs preds fs run_id ds).map
        (fun l => l.foldl (fun d kv => dictInsert kv.1 kv.2 d) acc) := by
  induction ds generalizing acc with
  | nil => rfl
  | cons inst rest ih =>
      simp only [convertLoop, convertPairs]
      cases hp : dictGet inst.instance_id preds with
      | none => rfl
      | some p =>
          dsimp only
          cases hfb : feedbackForInstance fs run_id inst.instance_id p with
          | error e => rfl
          | ok fb =>
              dsimp only
              rw [ih]
              cases hrest : convertPairs preds fs run_id rest <;> simp [Except.map]

/-- The run ids of the per-instance pairs are exactly the run ids of the
processed instances' predictions. -/
theorem convertPairs_keys (preds : List (String × Pred)) (fs : FS)
    (run_id : String) (ds : List Instance)
    (l : List (String × FeedbackRecord))
    (h : convertPairs preds fs run_id ds = .ok l) (k : String) :
    k ∈ l.map Prod.fst ↔
      ∃ inst ∈ ds, ∃ p, dictGet inst.instance_id preds = some p
        ∧ p.run_id = k := by
  induction ds generalizing l with
  | nil =>
      simp only [convertPairs] at h
      cases h
      simp
  | cons inst rest ih =>
      simp only [convertPairs] at h
      cases hp : dictGet inst.instance_id preds with
      | none => rw [hp] at h; cases h
      | some p =>
          rw [hp] at h
          dsimp only at h
          cases hfb : feedbackForInstance fs run_id inst.instance_id p with
          | error e => rw [hfb] at h; cases h
          | ok fb =>
              rw [hfb] at h
              dsimp only at h
              cases hrest : convertPairs preds fs run_id rest with
              | error e => rw [hrest] at h; cases h
              | ok l' =>
                  rw [hrest] at h
                  dsimp only [Except.map] at h
                  cases h
                  simp only [List.map_cons, List.mem_cons]
                  constructor
                  · rintro (rfl | hk)
                    · exact ⟨inst, Or.inl rfl, p, hp, rfl⟩
                    · obtain ⟨i', hi', p', hp', hr⟩ := (ih l' hrest).mp hk
                      exact ⟨i', Or.inr hi', p', hp', hr⟩
                  · rintro ⟨i', hi', p', hp', rfl⟩
                    rcases hi' with rfl | hi''
                    · rw [hp] at hp'
                      cases hp'
                      exact Or.inl rfl
                    · exact Or.inr ((ih l' hrest).mpr ⟨i', hi'', p', hp', rfl⟩)

/-- Every per-instance pair records its instance's prediction under that
prediction's run id, with the record `feedbackForInstance` computes. -/
theorem convertPairs_mem (preds : List (String × Pred)) (fs : FS)
    (run_id : String) (ds : List Instance)
    (l : List (String × FeedbackRecord))
    (h : convertPairs preds fs run_id ds = .ok l)
    (kv : String × FeedbackRecord) (hm : kv ∈ l) :
    ∃ inst ∈ ds, ∃ p, dictGet inst.instance_id preds = some p
      ∧ kv.1 = p.run_id
      ∧ feedbackForInstance fs run_id inst.instance_id p = .ok kv.2 := by
  induction ds generalizing l with
  | nil =>
      simp only [convertPairs] at h
      cases h
      simp at hm
  | cons inst rest ih =>
      simp only [convertPairs] at h
      cases hp : dictGet inst.instance_id preds with
      | none => rw [hp] at h; cases h
      | some p =>
          rw [hp] at h
          dsimp only at h
          cases hfb : feedbackForInstance fs run_id inst.instance_id p with
          | error e => rw [hfb] at h; cases h
          | ok fb =>
              rw [hfb] at h
              dsimp only at h
              cases hrest : convertPairs preds fs run_id rest with
              | error e => rw [hrest] at h; cases h
              | ok l' =>
                  rw [hrest] at h
                  dsimp only [Except.map] at h
                  cases h
                  rcases List.mem_cons.mp hm with rfl | hm'
                  · exact ⟨inst, List.mem_cons_self _ _, p, hp, rfl, hfb⟩
                  · obtain ⟨i', hi', p', hp', hk, hf⟩ := ih l' hrest hm'
                    exact ⟨i', List.mem_cons_of_mem _ hi', p', hp', hk, hf⟩

/-- Every record `feedbackForInstance` returns is one of the four
concrete three-tier records. -/
theorem feedbackForInstance_ok_cases (fs : FS) (run_id iid : String)
    (p : Pred) (r : FeedbackRecord)
    (h : feedbackForInstance fs run_id iid p = .ok r) :
    r = [⟨"non-empty-patch", 0⟩, ⟨"completed-patch", 0⟩, ⟨"resolved-patch", 0⟩]
    ∨ r = [⟨"non-empty-patch", 1⟩, ⟨"completed-patch", 0⟩, ⟨"resolved-patch", 0⟩]
    ∨ r = [⟨"non-empty-patch", 1⟩, ⟨"completed-patch", 1⟩, ⟨"resolved-patch", 0⟩]
    ∨ r = [⟨"non-empty-patch", 1⟩, ⟨"completed-patch", 1⟩, ⟨"resolved-patch", 1⟩] := by
  unfold feedbackForInstance at h
  by_cases hp : p.model_patch = some "" ∨ p.model_patch = none
  · rw [if_pos hp] at h
    cases h
    exact Or.inl rfl
  · rw [if_neg hp] at h
    cases hfs : fs run_id ⟨pyReplaceSlash p.model_name_or_path.data⟩ p.instance_id with
    | none =>
        rw [hfs] at h
        cases h
        exact Or.inr (Or.inl rfl)
    | some report =>
        rw [hfs] at h
        dsimp only at h
        cases hr : dictGet iid report with
        | none => rw [hr] at h; cases h
        | some resolved =>
            rw [hr] at h
            cases resolved
            · cases h
              exact Or.inr (Or.inr (Or.inl rfl))
            · cases h
              exact Or.inr (Or.inr (Or.inr rfl))

/-! ## Claim theorems -/

/-- C3 counterexample: the claim says version normalization never raises,
returns a no-colon input unchanged, returns everything after the first
`":"`, and coerces non-strings.  On the code, the no-colon string
`"3.1"` raises `IndexError`, `"a:b:c"` yields `"b"` (the second split
field) rather than `"b:c"`, and a numeric input raises
`AttributeError` instead of being coerced. -/
theorem normalize_version_no_colon_cex :
    normalize_version (.str "3.1") = .error .indexError
    ∧ normalize_version (.str "a:b:c") ≠ .ok "b:c".data
    ∧ normalize_version (.str "a:b:c") = .ok "b".data
    ∧ normalize_version (.num 31) = .error .attributeError := by decide

/-- C3 amended: version normalization (`d['version'].split(":")[1]`)
raises `IndexError` on a string with no `":"`, returns the second field
of the split — the substring strictly between the first and second `":"`
— on a string with at least one `":"`, and raises `AttributeError` on
any non-string input (there is no coercion to string). -/
theorem normalize_version_characterization :
    (∀ s : String, ':' ∉ s.data →
        normalize_version (.str s) = .error .indexError)
    ∧ (∀ a b : List Char, ':' ∉ a → ':' ∉ b →
        normalize_version (.str ⟨a ++ ':' :: b⟩) = .ok b)
    ∧ (∀ a b c : List Char, ':' ∉ a → ':' ∉ b →
        normalize_version (.str ⟨a ++ ':' :: b ++ ':' :: c⟩) = .ok b)
    ∧ (∀ n : Int, normalize_version (.num n) = .error .attributeError)
    ∧ normalize_version .other = .error .attributeError := by
  refine ⟨?_, ?_, ?_, fun _ => rfl, rfl⟩
  · intro s h
    simp [normalize_version, pySplit_no_sep ':' s.data h]
  · intro a b ha hb
    simp [normalize_version, pySplit_append ':' a b ha, pySplit_no_sep ':' b hb]
  · intro a b c ha hb
    simp [normalize_version, pySplit_append ':' a _ ha, pySplit_append ':' b c hb]

/-- C3 amended witness: the characterization applied to the concrete
inputs `"3.1"`, `"version" ++ ":" ++ "3.1"`, `"a" ++ ":" ++ "b" ++ ":" ++ "c"`
and `31`. -/
theorem normalize_version_characterization_witness :
    normalize_version (.str "3.1") = .error .indexError
    ∧ normalize_version (.str ⟨"version".data ++ ':' :: "3.1".data⟩) = .ok "3.1".data
    ∧ normalize_version (.str ⟨"a".data ++ ':' :: "b".data ++ ':' :: "c".data⟩) = .ok "b".data
    ∧ normalize_version (.num 31) = .error .attributeError :=
  ⟨normalize_version_characterization.1 "3.1" (by decide),
   normalize_version_characterization.2.1 "version".data "3.1".data (by decide) (by decide),
   normalize_version_characterization.2.2.1 "a".data "b".data "c".data (by decide) (by decide),
   normalize_version_characterization.2.2.2.1 31⟩

/-- C5: when the patch-generation collaborator raises or exceeds the
timeout budget, `predict` swallows the failure and returns a result with
`model_patch = ""`, the input's `instance_id`, and a populated
`model_name_or_path`. -/
theorem predict_collaborator_failure_empty_patch
    (inputs : List (String × String)) (iid : String) (c : CollabOutcome)
    (hiid : dictGet "instance_id" inputs = some iid)
    (hc : c = .raises ∨ c = .timesOut) :
    predict inputs c =
      .ok { instance_id := iid, model_patch := "",
            model_name_or_path := "gpt-4o-mini" } := by
  rcases hc with rfl | rfl <;> simp [predict, get_patch_with_timeout, hiid]

/-- C5 witness: a raising and a timing-out collaborator on a concrete
input, both yielding the empty-patch result. -/
theorem predict_collaborator_failure_empty_patch_witness :
    predict [("instance_id", "i1")] .raises =
      .ok { instance_id := "i1", model_patch := "",
            model_name_or_path := "gpt-4o-mini" }
    ∧ predict [("instance_id", "i1")] .timesOut =
      .ok { instance_id := "i1", model_patch := "",
            model_name_or_path := "gpt-4o-mini" } :=
  ⟨predict_collaborator_failure_empty_patch _ "i1" _ (by decide) (Or.inl rfl),
   predict_collaborator_failure_empty_patch _ "i1" _ (by decide) (Or.inr rfl)⟩

/-- C9: `predict`'s exception handler wraps only the collaborator call;
the result dict reads `inputs['instance_id']` outside it, so any input
lacking that key makes `predict` itself raise `KeyError`, whatever the
collaborator does. -/
theorem predict_missing_instance_id_keyError
    (inputs : List (String × String)) (c : CollabOutcome)
    (h : dictGet "instance_id" inputs = none) :
    predict inputs c = .error .keyError := by
  simp [predict, h]

/-- C9 witness: an input without `instance_id` raises even when the
collaborator returns a patch successfully. -/
theorem predict_missing_instance_id_keyError_witness :
    predict [] (.ok "patch") = .error .keyError :=
  predict_missing_instance_id_keyError [] (.ok "patch") rfl

/-- C2 counterexample: the claim says the evaluator returns an empty
result set for a run id absent from the feedback store; on the code the
dict subscript `langsmith_eval[str(run.id)]` raises `KeyError` at the
concrete store `{"r2": ...}` and run id `"r1"`. -/
theorem swe_bench_evaluator_missing_raises_cex :
    swe_bench_evaluator
      [("r2", [⟨"non-empty-patch", 1⟩, ⟨"completed-patch", 0⟩,
               ⟨"resolved-patch", 0⟩])] "r1" = .error .keyError := by decide

/-- C2 amended: for a platform run whose id has no entry in the persisted
feedback store, the publisher's evaluator raises `KeyError` (it does not
return an empty result set). -/
theorem swe_bench_evaluator_missing_keyError
    (store : List (String × FeedbackRecord)) (run_id : String)
    (h : dictGet run_id store = none) :
    swe_bench_evaluator store run_id = .error .keyError := by
  simp [swe_bench_evaluator, h]

/-- C2 amended witness: the empty store at run id `"r1"`. -/
theorem swe_bench_evaluator_missing_keyError_witness :
    swe_bench_evaluator [] "r1" = .error .keyError :=
  swe_bench_evaluator_missing_keyError [] "r1" rfl

/-- C1: the three-tier scores recorded per instance follow the exact
precedence of the loop body: an empty or missing `model_patch` scores
`[0,0,0]` for every report filesystem (the report is never consulted —
`fs` is universally quantified, so even one that would score `[1,1,1]`
gives the same record); a non-empty patch with no report file scores
`[1,0,0]`; a non-empty patch with a present report scores `[1,1,x]`
with `x = 1` exactly when the report marks the instance resolved. -/
theorem convert_feedback_three_tier_precedence
    (run_id iid : String) (p : Pred) :
    (∀ fs : FS, (p.model_patch = some "" ∨ p.model_patch = none) →
        feedbackForInstance fs run_id iid p =
          .ok [⟨"non-empty-patch", 0⟩, ⟨"completed-patch", 0⟩,
               ⟨"resolved-patch", 0⟩])
    ∧ (∀ fs : FS, ¬(p.model_patch = some "" ∨ p.model_patch = none) →
        fs run_id ⟨pyReplaceSlash p.model_name_or_path.data⟩ p.instance_id = none →
        feedbackForInstance fs run_id iid p =
          .ok [⟨"non-empty-patch", 1⟩, ⟨"completed-patch", 0⟩,
               ⟨"resolved-patch", 0⟩])
    ∧ (∀ (fs : FS) (report : List (String × Bool)) (resolved : Bool),
        ¬(p.model_patch = some "" ∨ p.model_patch = none) →
        fs run_id ⟨pyReplaceSlash p.model_name_or_path.data⟩ p.instance_id = some report →
        dictGet iid report = some resolved →
        feedbackForInstance fs run_id iid p =
          .ok [⟨"non-empty-patch", 1⟩, ⟨"completed-patch", 1⟩,
               ⟨"resolved-patch", if resolved then 1 else 0⟩]) := by
  refine ⟨?_, ?_, ?_⟩
  · intro fs h
    simp only [feedbackForInstance, if_pos h]
  · intro fs h hfs
    simp only [feedbackForInstance, if_neg h, hfs]
  · intro fs report resolved h hfs hr
    simp only [feedbackForInstance, if_neg h, hfs, hr]

/-- C1 witness: a report marking `"i1"` resolved cannot rescue an empty
patch; a missing report scores `[1,0,0]`; the same resolving report with
a non-empty patch scores `[1,1,1]`. -/
theorem convert_feedback_three_tier_precedence_witness :
    feedbackForInstance (fun _ _ _ => some [("i1", true)]) "test" "i1"
        ⟨"i1", some "", "m", "r1"⟩ =
      .ok [⟨"non-empty-patch", 0⟩, ⟨"completed-patch", 0⟩, ⟨"resolved-patch", 0⟩]
    ∧ feedbackForInstance (fun _ _ _ => none) "test" "i1"
        ⟨"i1", some "patch", "m", "r1"⟩ =
      .ok [⟨"non-empty-patch", 1⟩, ⟨"completed-patch", 0⟩, ⟨"resolved-patch", 0⟩]
    ∧ feedbackForInstance (fun _ _ _ => some [("i1", true)]) "test" "i1"
        ⟨"i1", some "patch", "m", "r1"⟩ =
      .ok [⟨"non-empty-patch", 1⟩, ⟨"completed-patch", 1⟩, ⟨"resolved-patch", 1⟩] :=
  ⟨(convert_feedback_three_tier_precedence "test" "i1"
      ⟨"i1", some "", "m", "r1"⟩).1 _ (Or.inl rfl),
   (convert_feedback_three_tier_precedence "test" "i1"
      ⟨"i1", some "patch", "m", "r1"⟩).2.1 _ (by decide) rfl,
   (convert_feedback_three_tier_precedence "test" "i1"
      ⟨"i1", some "patch", "m", "r1"⟩).2.2 _ [("i1", true)] true (by decide) rfl (by decide)⟩

/-- C4: resolution succeeds through the documented `version:3.1` to
`version:3.0` fallback when the repo's table lacks `version:3.1`; an
unregistered version such as `version:4.0` fails with a `KeyError`
payload enumerating exactly the repo's available versions; an
unregistered repo fails with the unknown-repository `KeyError`. -/
theorem make_test_spec_fallback_and_errors {α : Type}
    (map : List (String × List (String × α))) (repo : String)
    (table : List (String × α)) (iid : String) :
    (∀ s : α, dictGet repo map = some table →
        dictGet "version:3.1" table = none →
        dictGet "version:3.0" table = some s →
        make_test_spec map ⟨iid, repo, "version:3.1"⟩ = .ok s)
    ∧ (dictGet repo map = some table →
        dictGet "version:4.0" table = none →
        make_test_spec map ⟨iid, repo, "version:4.0"⟩ =
          .error (.unknownVersion "version:4.0" repo (table.map Prod.fst)))
    ∧ (∀ version : String, dictGet repo map = none →
        make_test_spec map ⟨iid, repo, version⟩ = .error (.unknownRepo repo)) := by
  refine ⟨?_, ?_, ?_⟩
  · intro s hmap h31 h30
    simp [make_test_spec, hmap, h31, h30]
  · intro hmap h40
    simp [make_test_spec, hmap, h40]
  · intro version hmap
    simp [make_test_spec, hmap]

/-- C4 witness: the table `{1.0, 2.0, 3.0}` resolves `version:3.1` to
the `version:3.0` spec, rejects `version:4.0` enumerating the three
available versions, and an unregistered repo is rejected. -/
theorem make_test_spec_fallback_and_errors_witness :
    make_test_spec
      [("repoX", [("version:1.0", 10), ("version:2.0", 20), ("version:3.0", 30)])]
      ⟨"i", "repoX", "version:3.1"⟩ = .ok 30
    ∧ make_test_spec
      [("repoX", [("version:1.0", 10), ("version:2.0", 20), ("version:3.0", 30)])]
      ⟨"i", "repoX", "version:4.0"⟩ =
        .error (.unknownVersion "version:4.0" "repoX"
          ["version:1.0", "version:2.0", "version:3.0"])
    ∧ make_test_spec
      [("repoX", [("version:1.0", 10), ("version:2.0", 20), ("version:3.0", 30)])]
      ⟨"i", "repoY", "version:1.0"⟩ = .error (.unknownRepo "repoY") :=
  ⟨(make_test_spec_fallback_and_errors _ "repoX"
      [("version:1.0", 10), ("version:2.0", 20), ("version:3.0", 30)] "i").1
      30 (by decide) (by decide) (by decide),
   (make_test_spec_fallback_and_errors _ "repoX"
      [("version:1.0", 10), ("version:2.0", 20), ("version:3.0", 30)] "i").2.1
      (by decide) (by decide),
   (make_test_spec_fallback_and_errors _ "repoY" [] "i").2.2
      "version:1.0" (by decide)⟩

/-- C7: an empty dataset or an empty run id makes `evaluate_predictions`
fail with `ValueError` or `AssertionError` respectively, before any
step is performed — the trace is empty, so no image listing, build, run
or removal happens. -/
theorem evaluate_predictions_fail_fast
    (dataset : List Instance) (predictions : List (String × Pred))
    (cfg : EvalConfig) (run_id : String) (env : HarnessEnv)
    (h : dataset = [] ∨ run_id.length = 0) :
    (evaluate_predictions dataset predictions cfg run_id env).1 = []
    ∧ ((evaluate_predictions dataset predictions cfg run_id env).2 = some .valueError
       ∨ (evaluate_predictions dataset predictions cfg run_id env).2 = some .assertionError) := by
  rcases h with rfl | hrid
  · simp [evaluate_predictions]
  · cases dataset with
    | nil => simp [evaluate_predictions]
    | cons i rest => simp [evaluate_predictions, hrid]

/-- C7 witness: the empty dataset with run id `"test"`, and a one-element
dataset with the empty run id. -/
theorem evaluate_predictions_fail_fast_witness :
    ((evaluate_predictions [] [] ⟨8, false, "env", false, 4096, 1800⟩ "test"
        ⟨false, false, fun _ _ _ => none⟩).1 = []
      ∧ ((evaluate_predictions [] [] ⟨8, false, "env", false, 4096, 1800⟩ "test"
        ⟨false, false, fun _ _ _ => none⟩).2 = some .valueError
       ∨ (evaluate_predictions [] [] ⟨8, false, "env", false, 4096, 1800⟩ "test"
        ⟨false, false, fun _ _ _ => none⟩).2 = some .assertionError))
    ∧ ((evaluate_predictions [⟨"i1", "x", "v"⟩] [] ⟨8, false, "env", false, 4096, 1800⟩ ""
        ⟨false, false, fun _ _ _ => none⟩).1 = []
      ∧ ((evaluate_predictions [⟨"i1", "x", "v"⟩] [] ⟨8, false, "env", false, 4096, 1800⟩ ""
        ⟨false, false, fun _ _ _ => none⟩).2 = some .valueError
       ∨ (evaluate_predictions [⟨"i1", "x", "v"⟩] [] ⟨8, false, "env", false, 4096, 1800⟩ ""
        ⟨false, false, fun _ _ _ => none⟩).2 = some .assertionError)) :=
  ⟨evaluate_predictions_fail_fast [] [] ⟨8, false, "env", false, 4096, 1800⟩ "test"
      ⟨false, false, fun _ _ _ => none⟩ (Or.inl rfl),
   evaluate_predictions_fail_fast [⟨"i1", "x", "v"⟩] [] ⟨8, false, "env", false, 4096, 1800⟩ ""
      ⟨false, false, fun _ _ _ => none⟩ (Or.inr rfl)⟩

/-- C6 counterexample: the claim says image cleanup runs on every exit
path once the build/run phase is entered; on the code, when
`run_instances` raises, the trace contains the build and run steps but
not `clean_images` (there is no `try`/`finally`). -/
theorem clean_images_skipped_on_run_raise_cex :
    Step.buildEnvImages ∈ (evaluate_predictions [⟨"i1", "x", "v"⟩] []
        ⟨8, false, "env", false, 4096, 1800⟩ "test"
        ⟨false, true, fun _ _ _ => none⟩).1
    ∧ Step.runInstances ∈ (evaluate_predictions [⟨"i1", "x", "v"⟩] []
        ⟨8, false, "env", false, 4096, 1800⟩ "test"
        ⟨false, true, fun _ _ _ => none⟩).1
    ∧ Step.cleanImages ∉ (evaluate_predictions [⟨"i1", "x", "v"⟩] []
        ⟨8, false, "env", false, 4096, 1800⟩ "test"
        ⟨false, true, fun _ _ _ => none⟩).1 := by decide

/-- C6 amended: the image cleanup step runs exactly when the input
checks pass and both `build_env_images` and `run_instances` return
normally — in particular it does run when the batch completes with
partially missing reports (`env.fs` is unconstrained) and when the
subsequent feedback conversion raises, but an exception escaping the
build or run step skips it. -/
theorem clean_images_iff_build_run_return
    (dataset : List Instance) (predictions : List (String × Pred))
    (cfg : EvalConfig) (run_id : String) (env : HarnessEnv) :
    Step.cleanImages ∈ (evaluate_predictions dataset predictions cfg run_id env).1
    ↔ (dataset ≠ [] ∧ run_id.length ≠ 0
       ∧ env.buildRaises = false ∧ env.runRaises = false) := by
  unfold evaluate_predictions
  cases dataset with
  | nil => simp
  | cons i rest =>
      by_cases hrid : run_id.length = 0
      · simp [hrid]
      · cases hb : env.buildRaises
        · cases hr : env.runRaises
          · cases hconv : convert_runs_to_langsmith_feedback predictions (i :: rest) run_id env.fs
              <;> simp [hrid, hb, hr, hconv]
          · simp [hrid, hb, hr]
        · simp [hrid, hb]

/-- C8: every record in the persisted feedback mapping is exactly three
`{key, score}` objects with keys `non-empty-patch`, `completed-patch`,
`resolved-patch` in that order, each score `0` or `1`, and the scores
are a monotone coarsening: resolved ≤ completed ≤ non-empty. -/
theorem feedback_store_record_invariant
    (preds : List (String × Pred)) (ds : List Instance) (rid : String)
    (fs : FS) (store : List (String × FeedbackRecord))
    (h : convert_runs_to_langsmith_feedback preds ds rid fs = .ok store) :
    ∀ kv ∈ store,
      kv.2.map FeedbackEntry.key =
        ["non-empty-patch", "completed-patch", "resolved-patch"]
      ∧ (∀ e ∈ kv.2, e.score = 0 ∨ e.score = 1)
      ∧ (∃ a b c, kv.2.map FeedbackEntry.score = [a, b, c] ∧ c ≤ b ∧ b ≤ a) := by
  intro kv hkv
  rw [convert_runs_to_langsmith_feedback, convertLoop_eq_pairs] at h
  cases hpairs : convertPairs preds fs rid ds with
  | error e => rw [hpairs] at h; cases h
  | ok l =>
      rw [hpairs] at h
      dsimp only [Except.map] at h
      cases h
      rcases mem_foldl_dictInsert kv l [] hkv with hm | hm
      · obtain ⟨i', hi', p', hp', hk, hf⟩ :=
          convertPairs_mem preds fs rid ds l hpairs kv hm
        rcases feedbackForInstance_ok_cases fs rid i'.instance_id p' kv.2 hf
          with h1 | h1 | h1 | h1
        · rw [h1]
          exact ⟨rfl, by decide, 0, 0, 0, rfl, Nat.le_refl _, Nat.le_refl _⟩
        · rw [h1]
          exact ⟨rfl, by decide, 1, 0, 0, rfl, Nat.le_refl _, Nat.zero_le _⟩
        · rw [h1]
          exact ⟨rfl, by decide, 1, 1, 0, rfl, Nat.zero_le _, Nat.le_refl _⟩
        · rw [h1]
          exact ⟨rfl, by decide, 1, 1, 1, rfl, Nat.le_refl _, Nat.le_refl _⟩
      · simp at hm

/-- C8 witness: the invariant read off the store produced by a concrete
two-instance run. -/
theorem feedback_store_record_invariant_witness :
    (("rShared",
       [(⟨"non-empty-patch", 0⟩ : FeedbackEntry), ⟨"completed-patch", 0⟩,
        ⟨"resolved-patch", 0⟩]) :
      String × FeedbackRecord).2.map FeedbackEntry.key =
        ["non-empty-patch", "completed-patch", "resolved-patch"]
    ∧ (∀ e ∈ (("rShared",
       [(⟨"non-empty-patch", 0⟩ : FeedbackEntry), ⟨"completed-patch", 0⟩,
        ⟨"resolved-patch", 0⟩]) :
      String × FeedbackRecord).2, e.score = 0 ∨ e.score = 1)
    ∧ (∃ a b c, (("rShared",
       [(⟨"non-empty-patch", 0⟩ : FeedbackEntry), ⟨"completed-patch", 0⟩,
        ⟨"resolved-patch", 0⟩]) :
      String × FeedbackRecord).2.map FeedbackEntry.score = [a, b, c]
        ∧ c ≤ b ∧ b ≤ a) :=
  feedback_store_record_invariant
    [("i1", ⟨"i1", some "patch", "m", "rShared"⟩),
     ("i2", ⟨"i2", some "", "m", "rShared"⟩)]
    [⟨"i1", "x", "v"⟩, ⟨"i2", "x", "v"⟩] "test"
    (fun _ _ _ => some [("i1", true), ("i2", false)])
    [("rShared",
      [⟨"non-empty-patch", 0⟩, ⟨"completed-patch", 0⟩, ⟨"resolved-patch", 0⟩])]
    (by decide)
    ("rShared",
      [⟨"non-empty-patch", 0⟩, ⟨"completed-patch", 0⟩, ⟨"resolved-patch", 0⟩])
    (by decide)

/-- C10: the persisted feedback mapping is keyed by the prediction's
`run_id`, not by `instance_id`: its key set is exactly the set of run
ids of the processed instances' predictions, looking a key up in the
store is looking it up in the reversed per-instance pair list (so the
instance latest in dataset order silently overwrites earlier ones
sharing a run id), and the keys are duplicate-free (exactly one record
per distinct run id). -/
theorem feedback_store_run_id_keying
    (preds : List (String × Pred)) (ds : List Instance) (rid : String)
    (fs : FS) (store l : List (String × FeedbackRecord))
    (hs : convert_runs_to_langsmith_feedback preds ds rid fs = .ok store)
    (hl : convertPairs preds fs rid ds = .ok l) :
    (∀ k, k ∈ store.map Prod.fst ↔
        ∃ inst ∈ ds, ∃ p, dictGet inst.instance_id preds = some p
          ∧ p.run_id = k)
    ∧ (∀ k, dictGet k store = dictGet k l.reverse)
    ∧ (store.map Prod.fst).Nodup := by
  rw [convert_runs_to_langsmith_feedback, convertLoop_eq_pairs, hl] at hs
  dsimp only [Except.map] at hs
  cases hs
  refine ⟨?_, ?_, ?_⟩
  · intro k
    rw [mem_keys_foldl_dictInsert]
    simp only [List.map_nil, List.not_mem_nil, or_false]
    exact convertPairs_keys preds fs rid ds l hl k
  · intro k
    rw [dictGet_foldl_dictInsert]
    cases hrev : dictGet k l.reverse <;> simp [dictGet]
  · exact keys_foldl_dictInsert_nodup l [] (by simp)

/-- C10 witness: two instances whose predictions share the run id
`rShared`; the second (empty-patch) instance's all-zero record is the
one left in the store, and the key list is the single shared run id. -/
theorem feedback_store_run_id_keying_witness :
    dictGet "rShared"
      [("rShared",
        [(⟨"non-empty-patch", 0⟩ : FeedbackEntry), ⟨"completed-patch", 0⟩,
         ⟨"resolved-patch", 0⟩])] =
      dictGet "rShared"
        (List.reverse
          [("rShared",
            [(⟨"non-empty-patch", 1⟩ : FeedbackEntry), ⟨"completed-patch", 1⟩,
             ⟨"resolved-patch", 1⟩]),
           ("rShared",
            [⟨"non-empty-patch", 0⟩, ⟨"completed-patch", 0⟩,
             ⟨"resolved-patch", 0⟩])])
    ∧ (List.map Prod.fst
        [("rShared",
          [(⟨"non-empty-patch", 0⟩ : FeedbackEntry), ⟨"completed-patch", 0⟩,
           ⟨"resolved-patch", 0⟩])]).Nodup :=
  ⟨(feedback_store_run_id_keying
      [("i1", ⟨"i1", some "patch", "m", "rShared"⟩),
       ("i2", ⟨"i2", some "", "m", "rShared"⟩)]
      [⟨"i1", "x", "v"⟩, ⟨"i2", "x", "v"⟩] "test"
      (fun _ _ _ => some [("i1", true), ("i2", false)])
      [("rShared",
        [⟨"non-empty-patch", 0⟩, ⟨"completed-patch", 0⟩, ⟨"resolved-patch", 0⟩])]
      [("rShared",
        [⟨"non-empty-patch", 1⟩, ⟨"completed-patch", 1⟩, ⟨"resolved-patch", 1⟩]),
       ("rShared",
        [⟨"non-empty-patch", 0⟩, ⟨"completed-patch", 0⟩, ⟨"resolved-patch", 0⟩])]
      (by decide) (by decide)).2.1 "rShared",
   (feedback_store_run_id_keying
      [("i1", ⟨"i1", some "patch", "m", "rShared"⟩),
       ("i2", ⟨"i2", some "", "m", "rShared"⟩)]
      [⟨"i1", "x", "v"⟩, ⟨"i2", "x", "v"⟩] "test"
      (fun _ _ _ => some [("i1", true), ("i2", false)])
      [("rShared",
        [⟨"non-empty-patch", 0⟩, ⟨"completed-patch", 0⟩, ⟨"resolved-patch", 0⟩])]
      [("rShared",
        [⟨"non-empty-patch", 1⟩, ⟨"completed-patch", 1⟩, ⟨"resolved-patch", 1⟩]),
       ("rShared",
        [⟨"non-empty-patch", 0⟩, ⟨"completed-patch", 0⟩, ⟨"resolved-patch", 0⟩])]
      (by decide) (by decide)).2.2⟩

end AgentEval
